import Mathlib

set_option maxRecDepth 10000

/-!
# Verification of the 8-bit simplex-noise core (`armnoise8.c`, `srnoise8.c`)

Shallow embedding of the two evaluators of the repository
(`src/armnoise8.c`, `src/srnoise8.c`) and proofs about them.

Conventions of the embedding:
* C `unsigned char` / `unsigned short` values are `Nat`s kept in range by
  `% 256` / `% 65536` at the points where the C code stores into a variable
  of that type.
* C `signed char` values are `Int`s in `[-128, 127]`; storing an `int`
  expression into a `signed char` is `i8` (wrap modulo 256 into that range,
  which is what the compilers targeted by this code do).
* C `>>` on a (possibly negative) `int` is an arithmetic shift, i.e. floor
  division by a power of two.  Lean's `Int` division `/` is `Int.ediv`,
  which agrees with floor division for positive divisors, so `z / 128`
  models `z >> 7` exactly.
* `abs` on `int` is `Int.natAbs` (the values never reach `INT_MIN`).
-/

/-- `lowByte(w)` = `(w) & 0xFF` (macro in both `.c` files). -/
def lowByte (w : Nat) : Nat := w % 256

/-- `highByte(w)` = `(w) >> 8` (macro in both `.c` files). -/
def highByte (w : Nat) : Nat := w / 256

/-- Store an `int` value into a `signed char`: two's-complement wrap
into `[-128, 127]`. -/
def i8 (z : Int) : Int := (z + 128) % 256 - 128

/-- Store an `int` value into an `unsigned char`: wrap into `[0, 255]`. -/
def u8 (z : Int) : Nat := (z % 256).toNat

/-- `fakesin` (srnoise8.c lines 61-69).  The parameter is an
`unsigned char`, so the argument is first reduced mod 256.

```c
signed char fakesin(unsigned char x) {
  signed char s = x & 0x7F;
  s = s - 64;
  s = abs(2 * s);
  s = (s*s)>>7;
  s = 127 - s;
  if (x & 0x80) return -s;
  else return s;
}
``` -/
def fakesin (x : Nat) : Int :=
  let x := x % 256
  let s1 : Int := (x % 128 : Nat)        -- s = x & 0x7F
  let s2 : Int := s1 - 64                -- s = s - 64
  let s3 : Int := i8 ((2 * s2).natAbs)   -- s = abs(2 * s)  (128 wraps to -128)
  let s4 : Int := i8 ((s3 * s3) / 128)   -- s = (s*s)>>7
  let s5 : Int := i8 (127 - s4)          -- s = 127 - s
  if 128 ≤ x then i8 (-s5) else s5       -- if (x & 0x80) return -s; else return s

/-- `fakecos` (srnoise8.c lines 71-74):
`unsigned char y = (x + 64); return fakesin(y);`. -/
def fakecos (x : Nat) : Int :=
  let y := (x + 64) % 256
  fakesin y

/-- Radial falloff weight as a function of the squared radius `r` (the
`else` branch requires `r ≤ 102`; both `.c` files, e.g. armnoise8.c
lines 211-218):

```c
if(r0 > 102) { m0 = 0; }
else {
  m0 = 255 - (r0<<1) - (r0>>1);
  m0 = (m0*m0)>>8;
  m0 = (m0*m0)>>8;
}
``` -/
def falloff (r : Nat) : Nat :=
  if 102 < r then 0
  else
    let m := 255 - 2 * r - r / 2
    let m := (m * m) / 256
    (m * m) / 256

/-- Squared radius of an offset vector, `((xf*xf)>>7) + ((yf*yf)>>7)`,
stored into an `unsigned char` (the sum can reach 256 and wraps). -/
def radius (xf yf : Int) : Nat := u8 ((xf * xf) / 128 + (yf * yf) / 128)

/-- Gradient ramp `g = ((gx*xf)>>7) + ((gy*yf)>>7)`, stored into a
`signed char`. -/
def ramp (g : Int × Int) (xf yf : Int) : Int :=
  i8 ((g.1 * xf) / 128 + (g.2 * yf) / 128)

/-- One vertex's noise contribution `n = (g * m) >> 6` stored into a
`signed char`, with `g` the ramp and `m` the falloff weight. -/
def contrib (g : Int × Int) (xf yf : Int) : Int :=
  i8 ((ramp g xf yf * falloff (radius xf yf)) / 64)

/-- armnoise8.c vertex hash (lines 122-130): two affine-square rounds.
The first argument is promoted to `int` from either a `signed char`
(`x0`, `x1`) or an `unsigned char` (`x2`). -/
def hashA (xv : Int) (v : Nat) : Nat :=
  let h := u8 ((13 * xv + 3) * xv)
  let h := (h + v) % 256
  ((17 * h + 7) * h) % 256

/-- srnoise8.c vertex hash (lines 131-147). -/
def hashS (uv v : Nat) : Nat :=
  let h := ((13 * uv + 7) * uv) % 256
  let h := (h + v) % 256
  ((15 * h + 11) * h) % 256

/-- armnoise8.c gradient selection (lines 160-170): bit 0x02 selects the
magnitude ordering, 0x08 negates x, 0x04 negates y. -/
def gradA (h : Nat) : Int × Int :=
  let p : Int × Int := if h / 2 % 2 = 1 then (64, 127) else (127, 64)
  let p := if h / 8 % 2 = 1 then (-p.1, p.2) else p
  if h / 4 % 2 = 1 then (p.1, -p.2) else p

/-- srnoise8.c gradient selection (lines 159-169): bit 0x01 selects the
magnitude ordering, 0x02 negates x, 0x04 negates y. -/
def gradS (h : Nat) : Int × Int :=
  let p : Int × Int := if h % 2 = 1 then (54, 108) else (108, 54)
  let p := if h / 2 % 2 = 1 then (-p.1, p.2) else p
  if h / 4 % 2 = 1 then (p.1, -p.2) else p

/-- srnoise8.c gradient rotation (lines 206-211), one gradient:
`gx' = ((Ca*gx)>>7) - ((Sa*gy)>>7); gy' = ((Sa*gx)>>7) + ((Ca*gy)>>7)`. -/
def rotg (Sa Ca : Int) (g : Int × Int) : Int × Int :=
  (i8 ((Ca * g.1) / 128 - (Sa * g.2) / 128),
   i8 ((Sa * g.1) / 128 + (Ca * g.2) / 128))

/-- The gradient actually used by `srnoise8` for a vertex with hash `h`
at phase `alpha`: rotated when `alpha != 0` (srnoise8.c lines 195-212),
with `Sa = fakesin(alpha)`, `Ca = fakecos(alpha)`. -/
def srPair (alpha h : Nat) : Int × Int :=
  let g := gradS h
  if alpha ≠ 0 then rotg (fakesin alpha) (fakecos alpha) g else g

section FakeSinClaims

/-- Helper: `fakesin` only depends on its argument mod 256. -/
theorem fakesin_mod (x : Nat) : fakesin (x % 256) = fakesin x := by
  unfold fakesin
  simp [Nat.mod_mod_of_dvd]

/-- Helper: bounds of `fakesin` on one period, by evaluation. -/
theorem fakesin_bounded : ∀ x < 256, -127 ≤ fakesin x ∧ fakesin x ≤ 127 := by decide!

/-- C7 (counterexample): the claim `fakesin 0 = 0` is false: the
parabolic approximation `127 - (2*(0-64))^2/128` evaluates to `-1` at
phase 0, and the code returns exactly that. -/
theorem fakesin_zero_ne_zero : fakesin 0 ≠ 0 := by decide

/-- C7 (amended): the sanity values of the fake sine as the code
computes them: `fakesin 0 = -1` (a near-zero value, not exactly 0),
`fakesin 64 = 127` (the maximum), and `fakesin 128 = 1` (a sign-flipped
near-zero). -/
theorem fakesin_sanity_values :
    fakesin 0 = -1 ∧ fakesin 64 = 127 ∧ fakesin 128 = 1 := by decide

/-- C8: for every phase `x`, `fakecos x = fakesin ((x + 64) % 256)`
(quarter-period shift with unsigned 8-bit wraparound); the mod can also
be dropped because `fakesin` is 256-periodic. -/
theorem fakecos_quarter_shift :
    ∀ x : Nat, fakecos x = fakesin ((x + 64) % 256) ∧ fakecos x = fakesin (x + 64) := by
  intro x
  constructor
  · rfl
  · show fakesin ((x + 64) % 256) = fakesin (x + 64)
    exact fakesin_mod (x + 64)

/-- C9: for every phase `x`, `fakesin x` lies in `[-127, 127]` (so the
byte value `-128` is never returned), and both endpoints are attained:
`fakesin 64 = 127` and `fakesin 192 = -127`. -/
theorem fakesin_range_exact :
    ∀ x : Nat, (-127 ≤ fakesin x ∧ fakesin x ≤ 127) ∧ fakesin 64 = 127 ∧ fakesin 192 = -127 := by
  intro x
  refine ⟨?_, by decide, by decide⟩
  have h := fakesin_bounded (x % 256) (Nat.mod_lt _ (by omega))
  rwa [fakesin_mod] at h

end FakeSinClaims

section FalloffClaims

/-- Helper: bounded falloff facts, by evaluation. -/
theorem falloff_le_252 : ∀ r < 103, falloff r ≤ 252 := by decide!

/-- Helper: on `[0, 102]` the falloff attains 252 only at 0. -/
theorem falloff_eq_252_iff : ∀ r < 103, falloff r = 252 → r = 0 := by decide!

/-- C4: the radial falloff weight is exactly 0 for every squared radius
`r > 102`; it reaches 0 at the cutoff `r = 102`; at `r = 0` it equals
252, the maximal weight value; and the maximum is attained only at
`r = 0`. -/
theorem falloff_cutoff_and_max :
    (∀ r : Nat, 102 < r → falloff r = 0) ∧ falloff 102 = 0 ∧ falloff 0 = 252 ∧
      (∀ r : Nat, falloff r ≤ 252) ∧ (∀ r : Nat, falloff r = 252 → r = 0) := by
  refine ⟨fun r hr => ?_, by decide, by decide, fun r => ?_, fun r hr => ?_⟩
  · unfold falloff
    simp [hr]
  · by_cases h : 102 < r
    · unfold falloff
      simp [h]
    · exact falloff_le_252 r (by omega)
  · by_cases h : 102 < r
    · unfold falloff at hr
      simp [h] at hr
    · exact falloff_eq_252_iff r (by omega) hr

/-- C4 witness: the cutoff part applied at `r = 103` and the bound part
at `r = 7`, with the hypotheses discharged on concrete inputs. -/
theorem falloff_cutoff_and_max_witness : falloff 103 = 0 ∧ falloff 7 ≤ 252 :=
  ⟨falloff_cutoff_and_max.1 103 (by decide), falloff_cutoff_and_max.2.2.2.1 7⟩

/-- Helper: monotonicity on the bounded part, by evaluation. -/
theorem falloff_mono_bounded : ∀ s < 103, ∀ r < 103, r ≤ s → falloff s ≤ falloff r := by decide!

/-- C5: the radial falloff weight is monotonically non-increasing in the
squared radius over the whole domain (in particular over `[0, 102]` and
over the 8-bit range of `r`). -/
theorem falloff_monotone : ∀ r s : Nat, r ≤ s → falloff s ≤ falloff r := by
  intro r s hrs
  by_cases hs : 102 < s
  · have : falloff s = 0 := by unfold falloff; simp [hs]
    omega
  · exact falloff_mono_bounded s (by omega) r (by omega) hrs

/-- C5 witness: monotonicity applied at the concrete pair `r = 3 ≤ s = 7`. -/
theorem falloff_monotone_witness : falloff 7 ≤ falloff 3 :=
  falloff_monotone 3 7 (by omega)

end FalloffClaims

/-! ## The two evaluators, decomposed statement by statement.

Each definition below embeds one statement (or one variable) of the C
source; `armnoise8`/`srnoise8` assemble them exactly as the code does.
Recomputing a sub-expression in several definitions does not change any
value, since everything is pure. -/

/-- `v0 = highByte(y)` stored in an `unsigned char` (both files; `v` is
an alias of `y`). -/
def v0of (y : Nat) : Nat := highByte y % 256

/-- `vf0 = lowByte(y)` (both files). -/
def vf0of (y : Nat) : Nat := lowByte y

/-- armnoise8.c line 62: `u = x + lowByte(y >> 1)` (`uint16_t`). -/
def armU (x y : Nat) : Nat := (x + lowByte (y / 2)) % 65536

/-- `u0 = highByte(u)` (armnoise8.c line 74). -/
def armU0 (x y : Nat) : Nat := highByte (armU x y) % 256

/-- `uf0 = lowByte(u)` (armnoise8.c line 75). -/
def armUf0 (x y : Nat) : Nat := lowByte (armU x y)

/-- `x0 = (u0 << 1) - (v0 & 0x01)` stored in a `signed char`
(armnoise8.c line 83). -/
def armX0 (x y : Nat) : Int := i8 (2 * armU0 x y - (v0of y % 2 : Nat))

/-- Second simplex vertex, `u` index (armnoise8.c lines 92-100). -/
def armU1 (x y : Nat) : Nat :=
  if vf0of y < armUf0 x y then (armU0 x y + 1) % 256 else armU0 x y

/-- Second simplex vertex, `v` index (armnoise8.c lines 92-100). -/
def armV1 (x y : Nat) : Nat :=
  if vf0of y < armUf0 x y then v0of y else (v0of y + 1) % 256

/-- `x1 = x0 + 2` or `x0 - 1` in the two branches (armnoise8.c lines 95, 99). -/
def armX1 (x y : Nat) : Int :=
  if vf0of y < armUf0 x y then i8 (armX0 x y + 2) else i8 (armX0 x y - 1)

/-- Third vertex `u2 = u0 + 1` (armnoise8.c line 109). -/
def armU2 (x y : Nat) : Nat := (armU0 x y + 1) % 256

/-- Third vertex `v2 = v0 + 1` (armnoise8.c line 110). -/
def armV2 (y : Nat) : Nat := (v0of y + 1) % 256

/-- `x2 = x0 + 1` stored in an `unsigned char` (armnoise8.c line 111). -/
def armX2 (x y : Nat) : Nat := u8 (armX0 x y + 1)

/-- Vertex hashes (armnoise8.c lines 122-130). -/
def armH0 (x y : Nat) : Nat := hashA (armX0 x y) (v0of y)

def armH1 (x y : Nat) : Nat := hashA (armX1 x y) (armV1 x y)

def armH2 (x y : Nat) : Nat := hashA (armX2 x y : Nat) (armV2 y)

/-- `xf0 = lowByte(x>>1) - (x0<<6)` (armnoise8.c line 141). -/
def armXf0 (x y : Nat) : Int := i8 ((lowByte (x / 2) : Nat) - 64 * armX0 x y)

/-- `yf0 = (vf0 >> 1)` (armnoise8.c line 142). -/
def armYf0 (y : Nat) : Int := (vf0of y / 2 : Nat)

/-- `xf1 = lowByte(x>>1) - (x1<<6)` (armnoise8.c line 143). -/
def armXf1 (x y : Nat) : Int := i8 ((lowByte (x / 2) : Nat) - 64 * armX1 x y)

/-- `yf1 = lowByte(y>>1) - (v1<<7)` (armnoise8.c line 145). -/
def armYf1 (x y : Nat) : Int := i8 ((lowByte (y / 2) : Nat) - 128 * (armV1 x y : Nat))

/-- `xf2 = xf0 - 64` (armnoise8.c line 146). -/
def armXf2 (x y : Nat) : Int := i8 (armXf0 x y - 64)

/-- `yf2 = yf0 - 128` (armnoise8.c line 147). -/
def armYf2 (y : Nat) : Int := i8 (armYf0 y - 128)

/-- armnoise8.c lines 149-261: gradients from the hashes, ramps,
falloffs, contributions `n0,n1,n2`, and the final
`n = (136 * (n0 + n1 + n2)) >> 7` stored in a `signed char`. -/
def armBody (x y : Nat) : Int :=
  let n0 := contrib (gradA (armH0 x y)) (armXf0 x y) (armYf0 y)
  let n1 := contrib (gradA (armH1 x y)) (armXf1 x y) (armYf1 x y)
  let n2 := contrib (gradA (armH2 x y)) (armXf2 x y) (armYf2 y)
  i8 ((136 * (n0 + n1 + n2)) / 128)

/-- `armnoise8(x, y)`: `uint16_t` parameters, then
`x = x & 0x7FFF; y = y & 0x7FFF` (armnoise8.c lines 51-55). -/
def armnoise8 (X Y : Nat) : Int := armBody (X % 65536 % 32768) (Y % 65536 % 32768)

/-- srnoise8.c line 84: `u = (x) + (y >> 1)` (`uint16_t`, full 16-bit shift). -/
def srU (x y : Nat) : Nat := (x + y / 2) % 65536

def srU0 (x y : Nat) : Nat := highByte (srU x y) % 256

def srUf0 (x y : Nat) : Nat := lowByte (srU x y)

/-- Second vertex (srnoise8.c lines 94-103). -/
def srU1 (x y : Nat) : Nat :=
  if vf0of y < srUf0 x y then (srU0 x y + 1) % 256 else srU0 x y

def srV1 (x y : Nat) : Nat :=
  if vf0of y < srUf0 x y then v0of y else (v0of y + 1) % 256

/-- Third vertex (srnoise8.c lines 106-107). -/
def srU2 (x y : Nat) : Nat := (srU0 x y + 1) % 256

def srV2 (y : Nat) : Nat := (v0of y + 1) % 256

/-- `x0 = (u0<<1) - v0` stored in a `signed char` (srnoise8.c line 110). -/
def srX0 (x y : Nat) : Int := i8 (2 * srU0 x y - (v0of y : Nat))

/-- `x1 = (u1<<1) - v1` in a `signed short` (srnoise8.c line 114); the
value lies in `[-255, 510]`, so no wrap happens. -/
def srX1 (x y : Nat) : Int := 2 * srU1 x y - (srV1 x y : Nat)

/-- `x2 = (u2<<1) - v2` stored in an `unsigned char` (srnoise8.c line 120). -/
def srX2 (x y : Nat) : Nat := u8 (2 * srU2 x y - (srV2 y : Nat))

/-- Offsets (srnoise8.c lines 124-129), all stored in `signed char`s. -/
def srXf0 (x y : Nat) : Int := i8 ((lowByte (x / 2) : Nat) - 64 * srX0 x y)

def srYf0 (y : Nat) : Int := i8 ((lowByte (y / 2) : Nat) - 128 * (v0of y : Nat))

def srXf1 (x y : Nat) : Int := i8 ((lowByte (x / 2) : Nat) - 64 * srX1 x y)

def srYf1 (x y : Nat) : Int := i8 ((lowByte (y / 2) : Nat) - 128 * (srV1 x y : Nat))

def srXf2 (x y : Nat) : Int := i8 ((lowByte (x / 2) : Nat) - 64 * (srX2 x y : Nat))

def srYf2 (y : Nat) : Int := i8 ((lowByte (y / 2) : Nat) - 128 * (srV2 y : Nat))

/-- Vertex hashes (srnoise8.c lines 131-147). -/
def srH0 (x y : Nat) : Nat := hashS (srU0 x y) (v0of y)

def srH1 (x y : Nat) : Nat := hashS (srU1 x y) (srV1 x y)

def srH2 (x y : Nat) : Nat := hashS (srU2 x y) (srV2 y)

/-- srnoise8.c lines 149-270: gradients (rotated via `srPair` when
`alpha != 0`), ramps, falloffs, contributions, final scaling. -/
def srBody (x y alpha : Nat) : Int :=
  let n0 := contrib (srPair alpha (srH0 x y)) (srXf0 x y) (srYf0 y)
  let n1 := contrib (srPair alpha (srH1 x y)) (srXf1 x y) (srYf1 x y)
  let n2 := contrib (srPair alpha (srH2 x y)) (srXf2 x y) (srYf2 y)
  i8 ((136 * (n0 + n1 + n2)) / 128)

/-- `srnoise8(x, y, alpha)` (srnoise8.c lines 76-270). -/
def srnoise8 (X Y A : Nat) : Int :=
  srBody (X % 65536 % 32768) (Y % 65536 % 32768) (A % 256)

/-- The static pipeline of `srnoise8`: identical to `srBody` but with
the gradients taken directly from the hash, no rotation step. -/
def srBodyStatic (x y : Nat) : Int :=
  let n0 := contrib (gradS (srH0 x y)) (srXf0 x y) (srYf0 y)
  let n1 := contrib (gradS (srH1 x y)) (srXf1 x y) (srYf1 x y)
  let n2 := contrib (gradS (srH2 x y)) (srXf2 x y) (srYf2 y)
  i8 ((136 * (n0 + n1 + n2)) / 128)

/-- The static evaluator obtained from `srnoise8` by removing the
rotation stage (same hash and gradient constants as `srnoise8`). -/
def srnoise8static (X Y : Nat) : Int :=
  srBodyStatic (X % 65536 % 32768) (Y % 65536 % 32768)

section WrapClaims

/-- Helper: `&&& 0x7FFF` is reduction mod `2^15`. -/
theorem and_mask15 (n : Nat) : n &&& 32767 = n % 32768 := by
  have h := Nat.and_pow_two_sub_one_eq_mod n 15
  norm_num at h
  exact h

/-- C2: both evaluators depend on each coordinate only through its low
15 bits: masking with `0x7FFF` does not change the result; consequently
adding `128*256` to a coordinate (with 16-bit wraparound) does not
either, and in particular `armnoise8 32768 32768 = armnoise8 0 0`. -/
theorem noise8_wraps_mod_2pow15 :
    ∀ X Y A : Nat,
      armnoise8 X Y = armnoise8 (X &&& 0x7FFF) (Y &&& 0x7FFF) ∧
      srnoise8 X Y A = srnoise8 (X &&& 0x7FFF) (Y &&& 0x7FFF) A ∧
      armnoise8 (X + 128 * 256) Y = armnoise8 X Y ∧
      armnoise8 X (Y + 128 * 256) = armnoise8 X Y ∧
      armnoise8 32768 32768 = armnoise8 0 0 := by
  intro X Y A
  have hX : (X &&& 32767) % 65536 % 32768 = X % 65536 % 32768 := by
    rw [and_mask15]; omega
  have hY : (Y &&& 32767) % 65536 % 32768 = Y % 65536 % 32768 := by
    rw [and_mask15]; omega
  have hX' : (X + 128 * 256) % 65536 % 32768 = X % 65536 % 32768 := by omega
  have hY' : (Y + 128 * 256) % 65536 % 32768 = Y % 65536 % 32768 := by omega
  refine ⟨?_, ?_, ?_, ?_, ?_⟩
  · show armBody _ _ = armBody _ _
    rw [hX, hY]
  · show srBody _ _ _ = srBody _ _ _
    rw [hX, hY]
  · show armBody _ _ = armBody _ _
    rw [hX']
  · show armBody _ _ = armBody _ _
    rw [hY']
  · show armBody _ _ = armBody _ _
    norm_num

end WrapClaims

section StaticClaims

/-- Helper: at phase 0 the rotation stage is skipped. -/
theorem srPair_zero (h : Nat) : srPair 0 h = gradS h := by
  simp [srPair]

/-- C3 (counterexample): `srnoise8 x y 0` does *not* equal
`armnoise8 x y` in general: the two evaluators use different hash
constants and different gradient magnitudes.  At `(x, y) = (14, 0)` the
static evaluator returns 24 and the flow evaluator at phase 0 returns
20. -/
theorem srnoise8_alpha0_ne_armnoise8 :
    srnoise8 14 0 0 ≠ armnoise8 14 0 ∧ srnoise8 14 0 0 = 20 ∧ armnoise8 14 0 = 24 := by
  refine ⟨by decide, by decide, by decide⟩

/-- C3 (amended): at phase 0 `srnoise8` takes the rotation-skip fast
path and agrees exactly with the static pipeline built from its own
hash and gradient constants (`srnoise8static`); it differs from
`armnoise8`, which uses different constants. -/
theorem srnoise8_alpha0_matches_static :
    ∀ X Y : Nat, srnoise8 X Y 0 = srnoise8static X Y := by
  intro X Y
  show srBody _ _ (0 % 256) = srBodyStatic _ _
  unfold srBody srBodyStatic
  norm_num [srPair_zero]

end StaticClaims

section VertexClaims

/-- Helper: the skewed cell index is an 8-bit value. -/
theorem srU0_lt (x y : Nat) : srU0 x y < 256 := by
  unfold srU0 srU highByte
  omega

theorem armU0_lt (x y : Nat) : armU0 x y < 256 := by
  unfold armU0 armU highByte
  omega

/-- C6: each evaluator produces exactly three simplex vertices in
skewed-lattice indices: the cell origin `(u0, v0)`; a second vertex
equal to `(u0+1, v0)` when the fractional remainder `uf0` exceeds `vf0`
and `(u0, v0+1)` otherwise; a third vertex always equal to
`(u0+1, v0+1)` (all coordinates as 8-bit values); and the three
vertices are pairwise distinct. -/
theorem simplex_vertices_structure :
    ∀ x y : Nat,
      ((vf0of y < srUf0 x y →
          (srU1 x y, srV1 x y) = ((srU0 x y + 1) % 256, v0of y)) ∧
       (¬ vf0of y < srUf0 x y →
          (srU1 x y, srV1 x y) = (srU0 x y, (v0of y + 1) % 256)) ∧
       (srU2 x y, srV2 y) = ((srU0 x y + 1) % 256, (v0of y + 1) % 256) ∧
       (srU0 x y, v0of y) ≠ (srU1 x y, srV1 x y) ∧
       (srU1 x y, srV1 x y) ≠ (srU2 x y, srV2 y) ∧
       (srU0 x y, v0of y) ≠ (srU2 x y, srV2 y)) ∧
      ((vf0of y < armUf0 x y →
          (armU1 x y, armV1 x y) = ((armU0 x y + 1) % 256, v0of y)) ∧
       (¬ vf0of y < armUf0 x y →
          (armU1 x y, armV1 x y) = (armU0 x y, (v0of y + 1) % 256)) ∧
       (armU2 x y, armV2 y) = ((armU0 x y + 1) % 256, (v0of y + 1) % 256) ∧
       (armU0 x y, v0of y) ≠ (armU1 x y, armV1 x y) ∧
       (armU1 x y, armV1 x y) ≠ (armU2 x y, armV2 y) ∧
       (armU0 x y, v0of y) ≠ (armU2 x y, armV2 y)) := by
  intro x y
  have hsu : srU0 x y < 256 := srU0_lt x y
  have hau : armU0 x y < 256 := armU0_lt x y
  have hv : v0of y < 256 := by unfold v0of; omega
  have hpne : ∀ a b c d : Nat, ¬ (a = c ∧ b = d) → (a, b) ≠ (c, d) := by
    intro a b c d hn he
    injection he with h1 h2
    exact hn ⟨h1, h2⟩
  refine ⟨⟨?_, ?_, rfl, ?_, ?_, ?_⟩, ?_, ?_, rfl, ?_, ?_, ?_⟩
  · intro h; simp [srU1, srV1, h]
  · intro h; simp [srU1, srV1, h]
  · apply hpne
    by_cases h : vf0of y < srUf0 x y <;> simp [srU1, srV1, h] <;> omega
  · apply hpne
    by_cases h : vf0of y < srUf0 x y <;> simp [srU1, srV1, srU2, srV2, h] <;> omega
  · apply hpne
    simp only [srU2, srV2]
    omega
  · intro h; simp [armU1, armV1, h]
  · intro h; simp [armU1, armV1, h]
  · apply hpne
    by_cases h : vf0of y < armUf0 x y <;> simp [armU1, armV1, h] <;> omega
  · apply hpne
    by_cases h : vf0of y < armUf0 x y <;> simp [armU1, armV1, armU2, armV2, h] <;> omega
  · apply hpne
    simp only [armU2, armV2]
    omega

/-- C6 witness: the vertex structure applied at the concrete inputs
`(x, y) = (14, 0)`, where `uf0 > vf0` holds, and `(x, y) = (0, 0)`,
where it does not; the branch hypotheses are discharged by
evaluation. -/
theorem simplex_vertices_structure_witness :
    (srU1 14 0, srV1 14 0) = ((srU0 14 0 + 1) % 256, v0of 0) ∧
    (srU1 0 0, srV1 0 0) = (srU0 0 0, (v0of 0 + 1) % 256) :=
  ⟨((simplex_vertices_structure 14 0).1.1 (by decide)),
   ((simplex_vertices_structure 0 0).1.2.1 (by decide))⟩

/-- C10: in `srnoise8`, the third-vertex offsets computed by the
general formulas always collapse to the shortcut relations
`xf2 = xf0 - 64` and `yf2 = yf0 - 128` in 8-bit signed (mod-256)
arithmetic — the optimized direct computation used by `armnoise8`
(armnoise8.c lines 146-147). -/
theorem sr_third_vertex_offsets_shortcut :
    ∀ x y : Nat, srXf2 x y = i8 (srXf0 x y - 64) ∧ srYf2 y = i8 (srYf0 y - 128) := by
  intro x y
  have hsu : srU0 x y < 256 := srU0_lt x y
  have hv : v0of y < 256 := by unfold v0of; omega
  constructor
  · unfold srXf2 srXf0 srX2 srX0 srU2 srV2 u8 i8 lowByte
    omega
  · unfold srYf2 srYf0 srV2 i8 lowByte
    omega

end VertexClaims
